import Mathlib

/-!
Verification of the MISP Betting service.

Shallow embedding of the repository's code:
* `src/main.py` — the FastAPI service: request handlers, their
  exception-handling skeleton, their database-connection events, and the
  SQLite → Postgres migration logic (`/data/migrate-to-postgres`).
* `src/data_sources/football_data_uk.py` — the `FootballDataUK` helper:
  season codes and season-data downloads.
* `tests/test_math_utils.py` — the arithmetic unit tests (the module
  `math_utils` they import is not part of the repository snapshot; its two
  functions are modelled from the spec).

Pure functions are translated into Lean functions; effectful code (HTTP
calls, database connections, exceptions) is translated into explicit
outcome parameters and event traces.  All definitions are executable.
-/

/-! ### math_utils (modelled from the spec) and tests/test_math_utils.py -/

/-- Modelled from the spec: the module `math_utils.py` imported by
`tests/test_math_utils.py` is absent from the repository snapshot; the spec
states `add(a,b) == a+b` for all integers. -/
def add (a b : Int) : Int := a + b

/-- Modelled from the spec: the module `math_utils.py` imported by
`tests/test_math_utils.py` is absent from the repository snapshot; the spec
states `multiply(a,b) == a*b` for all integers. -/
def multiply (a b : Int) : Int := a * b

/-- `test_add` from `tests/test_math_utils.py`: asserts `add(2,3) == 5` and
`add(-1,1) == 0`. -/
def test_add : Bool := (add 2 3 == 5) && (add (-1) 1 == 0)

/-- `test_multiply` from `tests/test_math_utils.py`: asserts
`multiply(2,3) == 6` and `multiply(-1,5) == -5`. -/
def test_multiply : Bool := (multiply 2 3 == 6) && (multiply (-1) 5 == -5)

/-- C1: for every pair of integers `a` and `b`, `add` returns `a + b`; the
assertions of `test_add` hold. -/
theorem add_spec : (∀ a b : Int, add a b = a + b) ∧ test_add = true :=
  ⟨fun _ _ => rfl, by decide⟩

/-- C2: for every pair of integers `a` and `b`, `multiply` returns `a * b`;
the assertions of `test_multiply` hold. -/
theorem multiply_spec : (∀ a b : Int, multiply a b = a * b) ∧ test_multiply = true :=
  ⟨fun _ _ => rfl, by decide⟩

/-! ### data_sources/football_data_uk.py — FootballDataUK.get_season_code -/

/-- Python `str(n)` for a nonnegative int `n`: its decimal digit characters,
most significant first. -/
def pyStr (n : Nat) : List Char :=
  if n = 0 then ['0'] else ((Nat.digits 10 n).reverse).map Nat.digitChar

/-- Python string slice `s[a:b]` (here on the character list of a string). -/
def pySlice (s : List Char) (a b : Nat) : List Char :=
  (s.drop a).take (b - a)

/-- `FootballDataUK.get_season_code` from
`src/data_sources/football_data_uk.py`:
returns the f-string `f"{str(year)[2:4]}{str(year+1)[2:4]}"`. -/
def get_season_code (year : Nat) : String :=
  ⟨pySlice (pyStr year) 2 4 ++ pySlice (pyStr (year + 1)) 2 4⟩

/-- Spec side of C8: the two characters formed by the last two decimal
digits of `n` (tens digit then units digit). -/
def lastTwoDigitsStr (n : Nat) : List Char :=
  [Nat.digitChar (n / 10 % 10), Nat.digitChar (n % 10)]

/-- Spec side of C8: the season code described by the claim — the last two
decimal digits of `year` followed by the last two decimal digits of
`year + 1`. -/
def season_code_spec (year : Nat) : String :=
  ⟨lastTwoDigitsStr year ++ lastTwoDigitsStr (year + 1)⟩

theorem digits_of_four_digit {n : Nat} (h1 : 1000 ≤ n) (h2 : n ≤ 9999) :
    Nat.digits 10 n = [n % 10, n / 10 % 10, n / 100 % 10, n / 1000] := by
  have t : (1 : ℕ) < 10 := by norm_num
  rw [Nat.digits_def' t (by omega : 0 < n),
    Nat.digits_def' t (by omega : 0 < n / 10),
    Nat.digits_def' t (by omega : 0 < n / 10 / 10),
    Nat.digits_def' t (by omega : 0 < n / 10 / 10 / 10)]
  have e2 : n / 10 / 10 = n / 100 := by omega
  have e3 : n / 10 / 10 / 10 = n / 1000 := by omega
  have e4 : n / 10 / 10 / 10 / 10 = 0 := by omega
  have e5 : n / 1000 % 10 = n / 1000 := Nat.mod_eq_of_lt (by omega)
  rw [e4, e3, e2, e5, Nat.digits_zero]

theorem pyStr_slice_two_four {n : Nat} (h1 : 1000 ≤ n) (h2 : n ≤ 9999) :
    pySlice (pyStr n) 2 4 = lastTwoDigitsStr n := by
  unfold pyStr pySlice lastTwoDigitsStr
  rw [if_neg (by omega : ¬ n = 0), digits_of_four_digit h1 h2]
  rfl

theorem digits_10000 : Nat.digits 10 10000 = [0, 0, 0, 0, 1] := by
  have t : (1 : ℕ) < 10 := by norm_num
  rw [Nat.digits_def' t (by norm_num : 0 < 10000)]
  norm_num

/-- C8: for every four-digit year, `get_season_code year` is the last two
decimal digits of `year` followed by the last two decimal digits of
`year + 1` (e.g. `2022 ↦ "2223"`); this also covers `year = 9999`, where
`str(10000)[2:4] = "00"` coincides with the last two digits of `10000`. -/
theorem get_season_code_spec (year : Nat) (h1 : 1000 ≤ year) (h2 : year ≤ 9999) :
    get_season_code year = season_code_spec year := by
  unfold get_season_code season_code_spec
  rw [pyStr_slice_two_four h1 h2]
  by_cases h : year ≤ 9998
  · rw [pyStr_slice_two_four (by omega) (by omega)]
  · have hy : year = 9999 := by omega
    subst hy
    have : pySlice (pyStr 10000) 2 4 = lastTwoDigitsStr 10000 := by
      unfold pyStr pySlice lastTwoDigitsStr
      rw [if_neg (by norm_num), digits_10000]
      rfl
    rw [this]

/-- Witness for C8 at `year = 2022`. -/
theorem get_season_code_spec_witness :
    1000 ≤ 2022 ∧ 2022 ≤ 9999 ∧ get_season_code 2022 = season_code_spec 2022 :=
  ⟨by norm_num, by norm_num, get_season_code_spec 2022 (by norm_num) (by norm_num)⟩

/-! ### data_sources/football_data_uk.py — FootballDataUK.download_season_data -/

/-- A Python exception that escapes a function: its class name and message. -/
structure PyExn where
  type : String
  msg : String
deriving DecidableEq

/-- Outcome of the fetch-and-parse block inside the `try` of
`download_season_data`: the `requests.get` / `raise_for_status` pair raises a
`RequestException`, some other step (e.g. `pd.read_csv`) raises, or a
DataFrame is produced, modelled as its list of rows. -/
inductive FetchOutcome
  | requestExc (msg : String)
  | otherExc (msg : String)
  | csv (rows : List (List String))

/-- `self.base_url` of `FootballDataUK`. -/
def base_url : String := "https://www.football-data.co.uk/mmz4281"

/-- `self.leagues` of `FootballDataUK`. -/
def leagues : List (String × String) :=
  [("EPL", "E0"), ("Championship", "E1"), ("La_Liga", "SP1"),
   ("Bundesliga", "D1"), ("Serie_A", "I1"), ("Ligue_1", "F1")]

/-- The league names accepted by `FootballDataUK` (`self.leagues.keys()`). -/
def knownLeagues : List String := leagues.map Prod.fst

/-- `FootballDataUK.download_season_data` from
`src/data_sources/football_data_uk.py`.  `fetch` maps the requested URL to
the outcome of the network/parse block.  `self.leagues.get(league)` yields
`None` exactly when the league is unknown (no code in `self.leagues` is
falsy), in which case a `ValueError` is raised before the `try` block; both
`except` arms return `None`, and an empty DataFrame also returns `None`. -/
def download_season_data (league : String) (season_year : Nat)
    (fetch : String → FetchOutcome) : Except PyExn (Option (List (List String))) :=
  let season_code := get_season_code season_year
  match leagues.lookup league with
  | none => Except.error ⟨"ValueError", "Unknown league: " ++ league⟩
  | some league_code =>
    match fetch (base_url ++ "/" ++ season_code ++ "/" ++ league_code ++ ".csv") with
    | FetchOutcome.requestExc _ => Except.ok none
    | FetchOutcome.otherExc _ => Except.ok none
    | FetchOutcome.csv rows =>
      if rows.isEmpty then Except.ok none else Except.ok (some rows)


theorem lookup_leagues_none_iff (league : String) :
    leagues.lookup league = none ↔ league ∉ knownLeagues := by
  by_cases hm : league ∈ knownLeagues
  · simp only [knownLeagues, leagues, List.map, List.mem_cons, List.not_mem_nil,
      or_false] at hm
    rcases hm with rfl | rfl | rfl | rfl | rfl | rfl <;> decide
  · have h := hm
    simp only [knownLeagues, leagues, List.map, List.mem_cons, List.not_mem_nil,
      or_false, not_or] at h
    obtain ⟨h1, h2, h3, h4, h5, h6⟩ := h
    simp [leagues, List.lookup_cons, beq_eq_false_iff_ne.mpr h1,
      beq_eq_false_iff_ne.mpr h2, beq_eq_false_iff_ne.mpr h3,
      beq_eq_false_iff_ne.mpr h4, beq_eq_false_iff_ne.mpr h5,
      beq_eq_false_iff_ne.mpr h6, hm]

theorem download_season_data_known {league code : String}
    (hl : leagues.lookup league = some code) (season_year : Nat)
    (fetch : String → FetchOutcome) :
    download_season_data league season_year fetch = Except.ok none ∨
    ∃ rows, rows ≠ [] ∧
      download_season_data league season_year fetch = Except.ok (some rows) := by
  have hD : download_season_data league season_year fetch =
      match fetch (base_url ++ "/" ++ get_season_code season_year ++ "/" ++
          code ++ ".csv") with
      | FetchOutcome.requestExc _ => Except.ok none
      | FetchOutcome.otherExc _ => Except.ok none
      | FetchOutcome.csv rows =>
        if rows.isEmpty then Except.ok none else Except.ok (some rows) := by
    simp only [download_season_data, hl]
  cases hfo : fetch (base_url ++ "/" ++ get_season_code season_year ++ "/" ++
      code ++ ".csv") with
  | requestExc m => rw [hfo] at hD; exact Or.inl hD
  | otherExc m => rw [hfo] at hD; exact Or.inl hD
  | csv rows =>
    rw [hfo] at hD
    by_cases hr : rows.isEmpty
    · exact Or.inl (hD.trans (by simp [hr]))
    · exact Or.inr ⟨rows, by simpa [List.isEmpty_iff] using hr, hD.trans (by simp [hr])⟩

theorem download_season_data_known_not_error {league code : String}
    (hl : leagues.lookup league = some code) (season_year : Nat)
    (fetch : String → FetchOutcome) (e : PyExn) :
    download_season_data league season_year fetch ≠ Except.error e := by
  rcases download_season_data_known hl season_year fetch with h | ⟨rows, -, h⟩ <;>
    rw [h] <;> exact fun hc => Except.noConfusion hc

/-- C10: `download_season_data` raises (a `ValueError`) iff the league is
not one of the six known league names; for a known league it never raises,
returning `None` on a request error, a processing error or empty data, and
a non-empty DataFrame otherwise. -/
theorem download_season_data_spec (league : String) (season_year : Nat)
    (fetch : String → FetchOutcome) :
    ((∃ e, download_season_data league season_year fetch = Except.error e ∧
        e.type = "ValueError") ↔ league ∉ knownLeagues)
    ∧ (league ∈ knownLeagues →
        download_season_data league season_year fetch = Except.ok none ∨
        ∃ rows, rows ≠ [] ∧
          download_season_data league season_year fetch = Except.ok (some rows)) := by
  constructor
  · constructor
    · rintro ⟨e, he, -⟩
      cases hl : leagues.lookup league with
      | none => exact (lookup_leagues_none_iff league).mp hl
      | some code =>
        exact absurd he (download_season_data_known_not_error hl season_year fetch e)
    · intro hnm
      have hl : leagues.lookup league = none := (lookup_leagues_none_iff league).mpr hnm
      refine ⟨⟨"ValueError", "Unknown league: " ++ league⟩, ?_, rfl⟩
      simp only [download_season_data, hl]
  · intro hmem
    cases hl : leagues.lookup league with
    | none => exact absurd hmem ((lookup_leagues_none_iff league).mp hl)
    | some code => exact download_season_data_known hl season_year fetch

/-- Witness for C10: the known league `"EPL"` with a fetch returning one
CSV row — the theorem's conclusion holds at this concrete input. -/
theorem download_season_data_spec_witness :
    download_season_data "EPL" 2023 (fun _ => FetchOutcome.csv [["H", "A"]]) =
      Except.ok none ∨
    ∃ rows, rows ≠ [] ∧
      download_season_data "EPL" 2023 (fun _ => FetchOutcome.csv [["H", "A"]]) =
        Except.ok (some rows) :=
  (download_season_data_spec "EPL" 2023 (fun _ => FetchOutcome.csv [["H", "A"]])).2
    (by decide)

/-! ### main.py — HTTP handlers and their exception-handling skeleton -/

/-- A JSON value as the handlers build them (strings and ints suffice for
the fields the claims mention). -/
inductive JVal
  | str (s : String)
  | int (n : Int)
deriving DecidableEq

/-- A JSON object: the dict a handler returns, as an ordered key-value list. -/
abbrev JsonObj := List (String × JVal)

/-- An HTTP response: FastAPI serialises a returned dict as the body of a
200 response. -/
structure HttpResponse where
  statusCode : Nat
  body : JsonObj
deriving DecidableEq

/-- The shape of the `except Exception` clause wrapping a handler body in
`src/main.py`: absent, returning `{"status": "error", "message": str(e)}`,
or returning that dict plus a `"timestamp"` field. -/
inductive CatchKind
  | noCatch
  | statusMessage
  | statusMessageTimestamp
deriving DecidableEq

/-- A request handler of `src/main.py`, reduced to its exception-handling
skeleton: its function name and the shape of its `try/except` wrapper. -/
structure Handler where
  name : String
  catchKind : CatchKind
deriving DecidableEq

/-- The eleven route handlers defined in `src/main.py`, in source order:
`root` (l.149), `health_check` (l.159) and `get_etl_status` (l.577) have no
`try/except`; the rest wrap their whole body, returning
`{"status": "error", "message": str(e)}` (l.294, 343, 431, 575), some with
an extra `"timestamp"` field (l.461-466, 554-559, 612-617, 649-654). -/
def mainHandlers : List Handler :=
  [⟨"root", CatchKind.noCatch⟩,
   ⟨"health_check", CatchKind.noCatch⟩,
   ⟨"initialize_postgres_schema", CatchKind.statusMessage⟩,
   ⟨"postgres_health_check", CatchKind.statusMessage⟩,
   ⟨"migrate_odds_to_postgres", CatchKind.statusMessage⟩,
   ⟨"data_health", CatchKind.statusMessageTimestamp⟩,
   ⟨"get_odds", CatchKind.statusMessageTimestamp⟩,
   ⟨"run_historical_etl", CatchKind.statusMessage⟩,
   ⟨"get_etl_status", CatchKind.noCatch⟩,
   ⟨"get_latest_odds", CatchKind.statusMessageTimestamp⟩,
   ⟨"get_table_info", CatchKind.statusMessageTimestamp⟩]

/-- Execution of a handler on the outcome of its body (`Except.ok` a dict,
or `Except.error` the `str(e)` of an exception raised inside the body):
a returned dict becomes an HTTP 200 response; a raised exception is turned
into an error dict by the handler's `except` clause when there is one, and
propagates out of the handler otherwise.  `now` is
`datetime.now().isoformat()` at the time the `except` clause runs. -/
def runHandler (h : Handler) (now : String) (body : Except String JsonObj) :
    Except String HttpResponse :=
  match body with
  | Except.ok j => Except.ok ⟨200, j⟩
  | Except.error e =>
    match h.catchKind with
    | CatchKind.noCatch => Except.error e
    | CatchKind.statusMessage =>
      Except.ok ⟨200, [("status", JVal.str "error"), ("message", JVal.str e)]⟩
    | CatchKind.statusMessageTimestamp =>
      Except.ok ⟨200, [("status", JVal.str "error"), ("message", JVal.str e),
        ("timestamp", JVal.str now)]⟩

/-- Counterexample to C3: `get_etl_status` is a handler of the service, and
an exception raised inside its body propagates instead of being caught and
turned into a 200 error response. -/
theorem get_etl_status_uncaught :
    (⟨"get_etl_status", CatchKind.noCatch⟩ : Handler) ∈ mainHandlers ∧
    runHandler ⟨"get_etl_status", CatchKind.noCatch⟩ "t0" (Except.error "boom") =
      Except.error "boom" :=
  ⟨by decide, rfl⟩

/-- C3 as amended: every handler of `src/main.py` except `root`,
`health_check` and `get_etl_status` wraps its body in a blanket
`except Exception` and, on an exception `e`, returns HTTP 200 with a JSON
object whose `"status"` is `"error"` and whose `"message"` is `str(e)`;
those three handlers have no exception handler, so the exception
propagates. -/
theorem handlers_catch_classified (h : Handler) (hm : h ∈ mainHandlers)
    (e now : String) :
    (h.catchKind = CatchKind.noCatch ↔
      h.name ∈ ["root", "health_check", "get_etl_status"])
    ∧ (h.catchKind ≠ CatchKind.noCatch →
        ∃ j, runHandler h now (Except.error e) = Except.ok ⟨200, j⟩ ∧
          j.lookup "status" = some (JVal.str "error") ∧
          j.lookup "message" = some (JVal.str e))
    ∧ (h.catchKind = CatchKind.noCatch →
        runHandler h now (Except.error e) = Except.error e) := by
  fin_cases hm <;>
    refine ⟨by decide, fun hk => ?_, fun hk => ?_⟩ <;>
    first
      | exact absurd rfl hk
      | exact absurd hk (by decide)
      | rfl
      | exact ⟨_, rfl, rfl, rfl⟩

/-- Witness for C3's amended theorem at the handler
`migrate_odds_to_postgres` with a concrete exception. -/
theorem handlers_catch_classified_witness :
    ∃ j, runHandler ⟨"migrate_odds_to_postgres", CatchKind.statusMessage⟩ "t1"
        (Except.error "db down") = Except.ok ⟨200, j⟩ ∧
      j.lookup "status" = some (JVal.str "error") ∧
      j.lookup "message" = some (JVal.str "db down") :=
  (handlers_catch_classified ⟨"migrate_odds_to_postgres", CatchKind.statusMessage⟩
    (by decide) "db down" "t1").2.1 (by decide)

/-! ### main.py — database-connection events of the handlers -/

/-- A database-connection event during a handler run: a connection to the
named database is created, or an open connection to it is closed. -/
inductive DbEvent
  | openDb (db : String)
  | closeDb (db : String)
deriving DecidableEq

/-- Connections still open after processing the events, given the list of
connections open so far (a close releases one matching open). -/
def stillOpenAux (acc : List String) : List DbEvent → List String
  | [] => acc
  | DbEvent.openDb n :: es => stillOpenAux (acc ++ [n]) es
  | DbEvent.closeDb n :: es => stillOpenAux (acc.erase n) es

/-- The connections a handler still holds open at the moment it returns. -/
def stillOpen (t : List DbEvent) : List String := stillOpenAux [] t

/-- The handler closed every connection it opened before returning. -/
abbrev closesAllConnections (t : List DbEvent) : Prop := stillOpen t = []

/-- `API_KEY` in `get_odds` (src/main.py line 473):
`os.getenv("ODDS_API_KEY", "77d4e7a1f17fcbb5d4c1f7a553daca15")`. -/
def odds_api_key (env : Option String) : String :=
  env.getD "77d4e7a1f17fcbb5d4c1f7a553daca15"

/-- The key check at line 475 passes: `API_KEY` is truthy and is not the
placeholder `"your_api_key_here"`. -/
def oddsApiKeyOk (env : Option String) : Prop :=
  ¬ (odds_api_key env = "" ∨ odds_api_key env = "your_api_key_here")

/-- Connection events of `health_check` (src/main.py lines 159-168):
line 161 calls `get_postgres_connection()` only to test it for truthiness;
`pgConn` says whether that helper found a database URL and connected (it
returns `None`, opening nothing, otherwise).  The handler never closes the
returned connection. -/
def health_check_conn_trace (pgConn : Bool) : List DbEvent :=
  if pgConn then [DbEvent.openDb "postgres"] else []

/-- Connection events of `get_odds` (src/main.py lines 469-559).
`env` is the `ODDS_API_KEY` environment variable, `apiStatus` the status
code of the odds-API response, `dbExc` whether the SQLite insert loop or
commit raises (caught by the blanket `except` at line 554).  The SQLite
connection is opened at line 517 only after the key and status checks pass,
and closed at line 544 only on the exception-free path. -/
def get_odds_conn_trace (env : Option String) (apiStatus : Nat) (dbExc : Bool) :
    List DbEvent :=
  if odds_api_key env = "" ∨ odds_api_key env = "your_api_key_here" then []
  else if apiStatus = 401 then []
  else if apiStatus ≠ 200 then []
  else if dbExc then [DbEvent.openDb "sqlite"]
  else [DbEvent.openDb "sqlite", DbEvent.closeDb "sqlite"]

/-- Connection events of `migrate_odds_to_postgres` (src/main.py lines
346-431).  `sqliteExc`: the SELECT on `odds_data` raises before the close
at line 363; `pgConn`: `get_postgres_connection()` returns a connection
(otherwise the handler returns early at line 368 having opened nothing on
the Postgres side); `pgExc`: an INSERT or the commit raises before the
close at line 421.  A raise lands in the `except` at line 430, which
returns without closing. -/
def migrate_conn_trace (sqliteExc pgConn pgExc : Bool) : List DbEvent :=
  DbEvent.openDb "sqlite" ::
    (if sqliteExc then []
     else DbEvent.closeDb "sqlite" ::
       (if !pgConn then []
        else DbEvent.openDb "postgres" ::
          (if pgExc then [] else [DbEvent.closeDb "postgres"])))

/-- Counterexample to C4: `health_check` opens a Postgres connection (when
one is configured and reachable) and returns while it is still open. -/
theorem health_check_leaks_connection :
    ¬ closesAllConnections (health_check_conn_trace true) := by decide

/-- C4 as amended: `health_check` returns with its Postgres connection
still open whenever `get_postgres_connection()` establishes one, and
`get_odds` and `migrate_odds_to_postgres` return with a connection still
open when an exception caught by their blanket `except` is raised after the
connection is opened; on all other paths every opened connection is closed
before the handler returns. -/
theorem connection_close_classified :
    (∀ p, closesAllConnections (health_check_conn_trace p) ↔ p = false)
    ∧ (∀ env s d, closesAllConnections (get_odds_conn_trace env s d) ↔
        ¬ (oddsApiKeyOk env ∧ s = 200 ∧ d = true))
    ∧ (∀ se pc pe, closesAllConnections (migrate_conn_trace se pc pe) ↔
        (se = false ∧ (pc = false ∨ pe = false))) := by
  refine ⟨fun p => by cases p <;> decide, fun env s d => ?_,
    fun se pc pe => by cases se <;> cases pc <;> cases pe <;> decide⟩
  unfold get_odds_conn_trace oddsApiKeyOk
  split_ifs with h1 h2 h3 h4
  · simp [closesAllConnections, stillOpen, stillOpenAux, h1]
  · subst h2
    simp [closesAllConnections, stillOpen, stillOpenAux]
  · simp [closesAllConnections, stillOpen, stillOpenAux, h3]
  · have hs : s = 200 := not_not.mp h3
    simp [closesAllConnections, stillOpen, stillOpenAux, h1, hs, h4]
  · simp [closesAllConnections, stillOpen, stillOpenAux, List.erase, h4]

/-- Witness for C4's amended theorem: the exception-free migration path
with no Postgres configured closes all connections. -/
theorem connection_close_classified_witness :
    closesAllConnections (migrate_conn_trace false false false) :=
  (connection_close_classified.2.2 false false false).mpr (by simp)

/-! ### main.py — the /etl/historical-fixtures handler -/

/-- An extract-transform-load effect a handler could perform: reading a
local file, reading an external API, or inserting a row into a database
table. -/
inductive EtlEvent
  | fileRead (path : String)
  | apiRead (url : String)
  | dbInsert (table : String)
deriving DecidableEq

/-- `EtlEvent` is a file or API read. -/
def EtlEvent.isRead : EtlEvent → Bool
  | EtlEvent.fileRead _ => true
  | EtlEvent.apiRead _ => true
  | EtlEvent.dbInsert _ => false

/-- `EtlEvent` is a database insert. -/
def EtlEvent.isInsert : EtlEvent → Bool
  | EtlEvent.dbInsert _ => true
  | _ => false

/-- The effects performed by `run_historical_etl`, the handler of
`POST /etl/historical-fixtures` and `GET /etl/historical-fixtures`
(src/main.py lines 562-575): its body only builds a dict — it reads no file,
calls no API and touches no database. -/
def run_historical_etl_trace : List EtlEvent := []

/-- The dict returned by `run_historical_etl` (src/main.py lines 567-573);
`now` is `datetime.now().isoformat()`. -/
def run_historical_etl_response (now : String) : JsonObj :=
  [("status", JVal.str "success"),
   ("message", JVal.str "ETL endpoint reached successfully"),
   ("action", JVal.str "Ready to process historical files"),
   ("available_files", JVal.int 11),
   ("timestamp", JVal.str now)]

/-- Counterexample to C5: invoking `/etl/historical-fixtures` performs no
file or API read and no database insert at all. -/
theorem historical_etl_no_io :
    ¬ (run_historical_etl_trace.any EtlEvent.isRead = true ∧
       run_historical_etl_trace.any EtlEvent.isInsert = true) := by decide

/-- C5 as amended: the handler for `POST /etl/historical-fixtures` performs
no processing — it reads no historical data and writes no rows to the
database, returning a static success JSON
(`"ETL endpoint reached successfully"`, `available_files` 11). -/
theorem historical_etl_static_response (now : String) :
    run_historical_etl_trace = []
    ∧ (run_historical_etl_response now).lookup "status" = some (JVal.str "success")
    ∧ (run_historical_etl_response now).lookup "message" =
        some (JVal.str "ETL endpoint reached successfully")
    ∧ (run_historical_etl_response now).lookup "available_files" =
        some (JVal.int 11) :=
  ⟨rfl, rfl, rfl, rfl⟩

/-! ### main.py — /data/migrate-to-postgres (lines 346-431) -/

/-- A row of the SQLite `odds_data` table as selected at lines 354-360
(REAL prices are modelled as exact rationals; `timestamp` is the TEXT value
SQLite stores and compares). -/
structure OddsRow where
  sport_key : String
  sport_title : String
  commence_time : String
  home_team : String
  away_team : String
  bookmaker : String
  market_key : String
  outcome_name : String
  price : Rat
  timestamp : String
deriving DecidableEq

/-- Python `.replace(' ', '_')`. -/
def replaceSpaces (s : String) : String :=
  ⟨s.data.map (fun c => if c = ' ' then '_' else c)⟩

/-- The fixture id derived at line 379 of src/main.py:
`f"{sport_key}_{commence_time}_{home_team}_vs_{away_team}".replace(' ', '_')`. -/
def mk_fixture_id (sport_key commence_time home_team away_team : String) : String :=
  replaceSpaces (sport_key ++ "_" ++ commence_time ++ "_" ++ home_team ++
    "_vs_" ++ away_team)

/-- Spec side of C6: `sport_key`, `commence_time`, `home_team`, the literal
`"vs"` and `away_team` joined by underscores, with every space replaced by
an underscore. -/
def fixture_id_spec (sport_key commence_time home_team away_team : String) : String :=
  replaceSpaces (String.intercalate "_"
    [sport_key, commence_time, home_team, "vs", away_team])

/-- A row of the Postgres `raw_fixtures` table, in the column order of the
INSERT at lines 382-396. -/
structure FixtureRow where
  fixture_id : String
  sport_type : String
  league : String
  home_team : String
  away_team : String
  fixture_date : String
  season : String
  status : String
deriving DecidableEq

/-- The `raw_fixtures` table as the list of its rows, `fixture_id` being
its primary key. -/
abbrev RawFixtures := List FixtureRow

/-- Whether `raw_fixtures` already holds a row with this `fixture_id`. -/
def containsFixture (t : RawFixtures) (id : String) : Bool :=
  t.any (fun r => r.fixture_id == id)

/-- The INSERT at lines 382-396:
`INSERT INTO raw_fixtures ... ON CONFLICT (fixture_id) DO NOTHING` — the
row is appended unless a row with the same `fixture_id` exists, in which
case nothing happens. -/
def insertFixture (t : RawFixtures) (r : FixtureRow) : RawFixtures :=
  if containsFixture t r.fixture_id then t else t ++ [r]

/-- The `raw_fixtures` row built from a SQLite odds row at lines 374-396:
derived fixture id, `sport_type = sport_key`, league `'NBA'`,
`fixture_date = commence_time`, season `'2024_25'`, status `'upcoming'`. -/
def toFixtureRow (row : OddsRow) : FixtureRow :=
  ⟨mk_fixture_id row.sport_key row.commence_time row.home_team row.away_team,
   row.sport_key, "NBA", row.home_team, row.away_team, row.commence_time,
   "2024_25", "upcoming"⟩

/-- The `raw_fixtures` contents after the migration loop (lines 374-418)
processes the fetched source rows in order. -/
def migrateFixtures (t : RawFixtures) (rows : List OddsRow) : RawFixtures :=
  rows.foldl (fun t2 row => insertFixture t2 (toFixtureRow row)) t

theorem containsFixture_insert_self (t : RawFixtures) (r : FixtureRow) :
    containsFixture (insertFixture t r) r.fixture_id = true := by
  unfold insertFixture
  by_cases h : containsFixture t r.fixture_id
  · rwa [if_pos h]
  · rw [if_neg h]
    simp [containsFixture]

theorem containsFixture_insert_mono {t : RawFixtures} {id : String}
    (h : containsFixture t id = true) (r : FixtureRow) :
    containsFixture (insertFixture t r) id = true := by
  unfold insertFixture
  split
  · exact h
  · simp only [containsFixture, List.any_append]
    simp [containsFixture] at h
    simp [h]

theorem containsFixture_migrate_mono {t : RawFixtures} {id : String}
    (h : containsFixture t id = true) (rows : List OddsRow) :
    containsFixture (migrateFixtures t rows) id = true := by
  induction rows generalizing t with
  | nil => exact h
  | cons r rs ih => exact ih (containsFixture_insert_mono h (toFixtureRow r))

theorem containsFixture_migrate_mem {rows : List OddsRow} {row : OddsRow}
    (hmem : row ∈ rows) (t : RawFixtures) :
    containsFixture (migrateFixtures t rows) (toFixtureRow row).fixture_id = true := by
  induction rows generalizing t with
  | nil => cases hmem
  | cons r rs ih =>
    cases hmem with
    | head =>
      exact containsFixture_migrate_mono
        (containsFixture_insert_self t (toFixtureRow row)) rs
    | tail _ hmem2 => exact ih hmem2 _

theorem migrateFixtures_noop {t : RawFixtures} {rows : List OddsRow}
    (h : ∀ row ∈ rows, containsFixture t (toFixtureRow row).fixture_id = true) :
    migrateFixtures t rows = t := by
  induction rows with
  | nil => rfl
  | cons r rs ih =>
    have hr : insertFixture t (toFixtureRow r) = t := by
      unfold insertFixture
      rw [if_pos (h r (List.mem_cons_self r rs))]
    show migrateFixtures (insertFixture t (toFixtureRow r)) rs = t
    rw [hr]
    exact ih (fun row hmem => h row (List.mem_cons_of_mem r hmem))

/-- C7: the `raw_fixtures` insert is idempotent — inserting a row whose
`fixture_id` already exists leaves the table unchanged (the conflict on the
primary key does nothing), and migrating the same source rows a second
time leaves `raw_fixtures` exactly as after the first migration. -/
theorem migration_idempotent (t : RawFixtures) (r : FixtureRow)
    (rows : List OddsRow) :
    (containsFixture t r.fixture_id = true → insertFixture t r = t)
    ∧ migrateFixtures (migrateFixtures t rows) rows = migrateFixtures t rows :=
  ⟨fun h => by unfold insertFixture; rw [if_pos h],
   migrateFixtures_noop (fun row hmem => containsFixture_migrate_mem hmem t)⟩

/-- Witness for C7: a concrete duplicate insert is dropped, and a concrete
two-row migration is idempotent. -/
theorem migration_idempotent_witness :
    insertFixture [⟨"nba_t1_H_vs_A", "nba", "NBA", "H", "A", "t1", "2024_25", "upcoming"⟩]
        ⟨"nba_t1_H_vs_A", "nba", "NBA", "H2", "A2", "t2", "2024_25", "upcoming"⟩ =
      [⟨"nba_t1_H_vs_A", "nba", "NBA", "H", "A", "t1", "2024_25", "upcoming"⟩] :=
  (migration_idempotent
    [⟨"nba_t1_H_vs_A", "nba", "NBA", "H", "A", "t1", "2024_25", "upcoming"⟩]
    ⟨"nba_t1_H_vs_A", "nba", "NBA", "H2", "A2", "t2", "2024_25", "upcoming"⟩ []).1
    (by decide)

theorem intercalate_underscore_five (a b c d : String) :
    String.intercalate "_" [a, b, c, "vs", d] =
      a ++ "_" ++ b ++ "_" ++ c ++ "_vs_" ++ d := by
  show (((a ++ "_" ++ b) ++ "_" ++ c) ++ "_" ++ "vs") ++ "_" ++ d =
    a ++ "_" ++ b ++ "_" ++ c ++ "_vs_" ++ d
  apply String.ext
  have hvs : ("_vs_" : String).data =
      ("_" : String).data ++ ("vs" : String).data ++ ("_" : String).data := by decide
  simp [String.data_append, hvs, List.append_assoc]

/-- C6: the fixture identity every migrated row gets is exactly the derived
string the claim describes — `sport_key`, `commence_time`, `home_team`,
the literal `"vs"` and `away_team` joined by underscores with every space
replaced by an underscore; it is collision-prone (two different home-team
strings yield the same id), and a colliding insert is silently dropped with
no validation. -/
theorem fixture_id_spec_correct :
    (∀ sk ct ht aw, mk_fixture_id sk ct ht aw = fixture_id_spec sk ct ht aw)
    ∧ (mk_fixture_id "basketball_nba" "2024-01-01T00:00:00Z" "LA Lakers" "Boston" =
        mk_fixture_id "basketball_nba" "2024-01-01T00:00:00Z" "LA_Lakers" "Boston"
      ∧ ("LA Lakers" : String) ≠ "LA_Lakers")
    ∧ (∀ t row, containsFixture t (toFixtureRow row).fixture_id = true →
        insertFixture t (toFixtureRow row) = t) := by
  refine ⟨fun sk ct ht aw => ?_, ⟨by decide, by decide⟩,
    fun t row h => by unfold insertFixture; rw [if_pos h]⟩
  unfold mk_fixture_id fixture_id_spec
  rw [intercalate_underscore_five]

/-- Witness for C6: a concrete colliding row (same derived fixture id,
different team strings) is dropped by the migration insert. -/
theorem fixture_id_spec_correct_witness :
    insertFixture
        [⟨mk_fixture_id "nba" "t1" "LA Lakers" "B", "nba", "NBA", "LA Lakers", "B",
          "t1", "2024_25", "upcoming"⟩]
        (toFixtureRow ⟨"nba", "NBA", "t1", "LA_Lakers", "B", "bk", "h2h", "LA_Lakers",
          2, "t2"⟩) =
      [⟨mk_fixture_id "nba" "t1" "LA Lakers" "B", "nba", "NBA", "LA Lakers", "B",
        "t1", "2024_25", "upcoming"⟩] :=
  (fixture_id_spec_correct.2.2
    [⟨mk_fixture_id "nba" "t1" "LA Lakers" "B", "nba", "NBA", "LA Lakers", "B",
      "t1", "2024_25", "upcoming"⟩]
    ⟨"nba", "NBA", "t1", "LA_Lakers", "B", "bk", "h2h", "LA_Lakers", 2, "t2"⟩)
    (by decide)

/-! ### main.py — the LIMIT 100 read of the migration (C9) -/

/-- The SELECT at lines 354-360:
`SELECT ... FROM odds_data ORDER BY timestamp DESC LIMIT 100` — the rows
sorted by their TEXT timestamp descending, truncated to the first 100. -/
def queryRecentOdds (odds_data : List OddsRow) : List OddsRow :=
  (odds_data.mergeSort (fun a b => decide (b.timestamp ≤ a.timestamp))).take 100

/-- The `migrated_count` reported by the success response of
`/data/migrate-to-postgres` (lines 372, 418, 423-428): the loop body runs
once per fetched row and increments the counter once each time. -/
def migrated_count (odds_data : List OddsRow) : Nat :=
  (queryRecentOdds odds_data).length

/-- C9: the migration reads at most the 100 most recent rows of
`odds_data`, so the `migrated_count` it reports on success is at most 100,
however many rows `odds_data` contains. -/
theorem migrated_count_le_100 (odds_data : List OddsRow) :
    (queryRecentOdds odds_data).length ≤ 100 ∧ migrated_count odds_data ≤ 100 := by
  have h : (queryRecentOdds odds_data).length ≤ 100 := by
    unfold queryRecentOdds
    simp [List.length_take]
  exact ⟨h, h⟩
